import Mathlib

/-!
Shallow embedding of the recipe CRUD service in `src/main.py` (Flask + MySQL).

The service stores recipes in one relational table.  Each request handler is
embedded as a pure Lean function over an explicit store state (`DB`).  Points
where the code can encounter a database fault (connection failure, a raised
statement) are made explicit boolean parameters; the handler result records the
HTTP response, the resulting store, and whether a pooled connection was
acquired and whether it was closed before returning.
-/

namespace RecipeApp

/-- A JSON value as it can appear in a request body field.  Mirrors the Python
values the handlers inspect: null, booleans, integers, strings. -/
inductive JValue where
  | jnull : JValue
  | jbool : Bool → JValue
  | jint : Int → JValue
  | jstr : String → JValue
  deriving Repr, DecidableEq

/-- Python truthiness (`if not data[field]`): None and False are falsy, an
integer is falsy iff it is 0, a string is falsy iff it is empty. -/
def JValue.truthy : JValue → Bool
  | .jnull => false
  | .jbool b => b
  | .jint n => n != 0
  | .jstr s => !s.isEmpty

/-- Python `int(x)` as used on `data['cost']`: an int is returned unchanged, a
bool becomes 0 or 1, a string is parsed as a (signed, whitespace-trimmed)
integer, anything else raises.  `none` models the raised exception
(ValueError / TypeError). -/
def pyInt : JValue → Option Int
  | .jnull => none
  | .jbool b => some (if b then 1 else 0)
  | .jint n => some n
  | .jstr s => s.trim.toInt?

/-- A parsed JSON object body: association list from keys to values. -/
abbrev JObj := List (String × JValue)

/-- Key lookup in the body, as in `field in data` and `data[field]`. -/
def lookupField (data : JObj) (k : String) : Option JValue :=
  (data.find? (fun p => p.1 == k)).map (fun p => p.2)

/-- Field access `data[field]` after presence has been checked (defaults to null). -/
def getField (data : JObj) (k : String) : JValue :=
  (lookupField data k).getD JValue.jnull

/-- The check the handlers run per required field: present and truthy. -/
def fieldTruthy (data : JObj) (k : String) : Bool :=
  match lookupField data k with
  | some v => v.truthy
  | none => false

/-- The list `required_fields = ['title', 'making_time', 'serves', 'ingredients', 'cost']`. -/
def required_fields : List String :=
  ["title", "making_time", "serves", "ingredients", "cost"]

/-- One row of the `recipes` table.  The four text columns hold whatever JSON
value the parameterized INSERT/UPDATE was given; `cost` is the integer the
handler produced with `int(...)`; the timestamps are abstract instants. -/
structure Recipe where
  id : Nat
  title : JValue
  making_time : JValue
  serves : JValue
  ingredients : JValue
  cost : Int
  created_at : Nat
  updated_at : Nat
  deriving Repr, DecidableEq

/-- The store: the rows of the `recipes` table in insertion order, plus the
next AUTO_INCREMENT id. -/
structure DB where
  recipes : List Recipe
  nextId : Nat
  deriving Repr, DecidableEq

/-- The query `SELECT ... FROM recipes WHERE id = %s` with `fetchone()`. -/
def findRecipe (l : List Recipe) (i : Nat) : Option Recipe :=
  l.find? (fun r => r.id == i)

/-- A JSON HTTP response: status code, optional `message` field, optional
single-element `recipe` field, optional `recipes` field. -/
structure HResp where
  status : Nat
  message : Option String
  recipe : Option Recipe
  recipes : Option (List Recipe)
  deriving Repr, DecidableEq

/-- Whether the handler acquired a pooled connection and whether it closed it
before returning. -/
structure ConnUse where
  opened : Bool
  closed : Bool
  deriving Repr, DecidableEq

/-- Result of one handler invocation: response, resulting store, connection
accounting. -/
structure HandlerOut where
  resp : HResp
  db : DB
  conn : ConnUse
  deriving Repr, DecidableEq

/-- Handler `index` for `GET /`: the source returns an empty body with status 404. -/
def index : HResp :=
  { status := 404, message := none, recipe := none, recipes := none }

/-- The response every failing path of `create_recipe` returns. -/
def createFailResp : HResp :=
  { status := 200, message := some "Recipe creation failed!", recipe := none, recipes := none }

/-- The validation prelude of `create_recipe`, run before any database access,
in the source's order: Content-Type must be `application/json`, the body must
parse as JSON, every one of the five required fields must be present and
truthy, `int(data['cost'])` must not raise, and the result must be strictly
positive.  Every failing check makes the handler return `createFailResp`
before a connection is acquired, so the checks collapse to one Option: `none`
on any failure, otherwise the body together with the parsed cost. -/
def createParse (contentType : String) (body : Option JObj) : Option (JObj × Int) :=
  if contentType != "application/json" then none
  else
    match body with
    | none => none
    | some data =>
      if !(required_fields.all (fun f => fieldTruthy data f)) then none
      else
        match pyInt (getField data "cost") with
        | none => none
        | some cost => if cost ≤ 0 then none else some (data, cost)

/-- The row the INSERT creates: server-assigned id (AUTO_INCREMENT) and both
timestamps set to the insert time (`created_at`/`updated_at` default to the
current server time in the schema). -/
def insertedRecipe (data : JObj) (cost : Int) (db : DB) (now : Nat) : Recipe :=
  { id := db.nextId, title := getField data "title",
    making_time := getField data "making_time",
    serves := getField data "serves",
    ingredients := getField data "ingredients",
    cost := cost, created_at := now, updated_at := now }

/-- Handler `create_recipe` for `POST /recipes`.

Arguments: the request Content-Type, the parsed JSON body (`none` when the
body is not parseable JSON), the store, the current server time `now`, and the
fault points: `connectFails` (get_db_connection raises), `insertFails` (the
INSERT raises a mysql error), `selectFails` (the SELECT after the insert
raises).  The INSERT is committed before the SELECT runs, so a failing SELECT
still leaves the new row in the store.  The inner try/finally closes cursor
and connection on every path after acquisition. -/
def create_recipe (contentType : String) (body : Option JObj) (db : DB) (now : Nat)
    (connectFails insertFails selectFails : Bool) : HandlerOut :=
  match createParse contentType body with
  | none => ⟨createFailResp, db, ⟨false, false⟩⟩
  | some (data, cost) =>
    if connectFails then
      ⟨createFailResp, db, ⟨false, false⟩⟩
    else if insertFails then
      ⟨createFailResp, db, ⟨true, true⟩⟩
    else
      let r : Recipe := insertedRecipe data cost db now
      let db' : DB := ⟨db.recipes ++ [r], db.nextId + 1⟩
      if selectFails then
        ⟨createFailResp, db', ⟨true, true⟩⟩
      else
        match findRecipe db'.recipes r.id with
        | none => ⟨createFailResp, db', ⟨true, true⟩⟩
        | some rec =>
          ⟨{ status := 200, message := some "Recipe successfully created!",
             recipe := some rec, recipes := none }, db', ⟨true, true⟩⟩

/-- Handler `get_recipes` for `GET /recipes`.  Fault points: `connectFails`
(connection raises before acquisition), `listFails` (the SELECT raises after
the connection was acquired — the bare `except` then returns without closing
it).  An empty table yields `{"message": "No recipes found"}`, not an empty
list. -/
def get_recipes (db : DB) (connectFails listFails : Bool) : HandlerOut :=
  if connectFails then
    ⟨⟨200, some "No recipes found", none, none⟩, db, ⟨false, false⟩⟩
  else if listFails then
    ⟨⟨200, some "No recipes found", none, none⟩, db, ⟨true, false⟩⟩
  else if db.recipes.isEmpty then
    ⟨⟨200, some "No recipes found", none, none⟩, db, ⟨true, true⟩⟩
  else
    ⟨⟨200, none, none, some db.recipes⟩, db, ⟨true, true⟩⟩

/-- Handler `get_recipe` for `GET /recipes/{id}`.  Fault points as in
`get_recipes`; a SELECT fault again skips the close calls. -/
def get_recipe (i : Nat) (db : DB) (connectFails selectFails : Bool) : HandlerOut :=
  if connectFails then
    ⟨⟨200, some "No Recipe found", none, none⟩, db, ⟨false, false⟩⟩
  else if selectFails then
    ⟨⟨200, some "No Recipe found", none, none⟩, db, ⟨true, false⟩⟩
  else
    match findRecipe db.recipes i with
    | some r =>
      ⟨⟨200, some "Recipe details by id", some r, none⟩, db, ⟨true, true⟩⟩
    | none =>
      ⟨⟨200, some "No Recipe found", none, none⟩, db, ⟨true, true⟩⟩

/-- Modelled from the spec: the UPDATE statement sets only the five data
columns, and the table schema (`create.sql`, which is read at startup but is
not under src/) refreshes `updated_at` to the current server time on every
update, per the spec: "`updated_at` is always refreshed regardless of which
fields changed".  `id` and `created_at` are untouched. -/
def applyUpdate (data : JObj) (cost : Int) (now : Nat) (r : Recipe) : Recipe :=
  { id := r.id, title := getField data "title",
    making_time := getField data "making_time",
    serves := getField data "serves",
    ingredients := getField data "ingredients",
    cost := cost, created_at := r.created_at, updated_at := now }

/-- Handler `update_recipe` for `PATCH /recipes/{id}`.

The body (`none` models `get_json()` yielding nothing usable, which makes
`field in data` raise into the catch-all).  The handler first requires ALL
five fields present and truthy (`if not all(...)`), then acquires a
connection, checks existence (a missing row is the one early return that does
close the connection), evaluates `int(data['cost'])` (a raise here or at any
later statement reaches the catch-all which returns without closing the
connection), runs the UPDATE, commits, and re-reads the row. -/
def update_recipe (i : Nat) (body : Option JObj) (db : DB) (now : Nat)
    (connectFails checkFails updateFails selectFails : Bool) : HandlerOut :=
  match body with
  | none =>
    ⟨⟨200, some "Recipe update failed!", none, none⟩, db, ⟨false, false⟩⟩
  | some data =>
    if !(required_fields.all (fun f => fieldTruthy data f)) then
      ⟨⟨200, some "Recipe update failed!", none, none⟩, db, ⟨false, false⟩⟩
    else if connectFails then
      ⟨⟨200, some "Recipe update failed!", none, none⟩, db, ⟨false, false⟩⟩
    else if checkFails then
      ⟨⟨200, some "Recipe update failed!", none, none⟩, db, ⟨true, false⟩⟩
    else
      match findRecipe db.recipes i with
      | none =>
        ⟨⟨200, some "No Recipe found", none, none⟩, db, ⟨true, true⟩⟩
      | some _ =>
        match pyInt (getField data "cost") with
        | none =>
          ⟨⟨200, some "Recipe update failed!", none, none⟩, db, ⟨true, false⟩⟩
        | some cost =>
          if updateFails then
            ⟨⟨200, some "Recipe update failed!", none, none⟩, db, ⟨true, false⟩⟩
          else
            let db' : DB :=
              ⟨db.recipes.map (fun r => if r.id == i then applyUpdate data cost now r else r),
               db.nextId⟩
            if selectFails then
              ⟨⟨200, some "Recipe update failed!", none, none⟩, db', ⟨true, false⟩⟩
            else
              ⟨⟨200, some "Recipe successfully updated!", findRecipe db'.recipes i, none⟩,
               db', ⟨true, true⟩⟩

/-- Handler `delete_recipe` for `DELETE /recipes/{id}`.  The catch-all returns
"No Recipe found" (without closing the connection when one is open); the
missing-row early return does close it. -/
def delete_recipe (i : Nat) (db : DB)
    (connectFails checkFails deleteFails : Bool) : HandlerOut :=
  if connectFails then
    ⟨⟨200, some "No Recipe found", none, none⟩, db, ⟨false, false⟩⟩
  else if checkFails then
    ⟨⟨200, some "No Recipe found", none, none⟩, db, ⟨true, false⟩⟩
  else
    match findRecipe db.recipes i with
    | none =>
      ⟨⟨200, some "No Recipe found", none, none⟩, db, ⟨true, true⟩⟩
    | some _ =>
      if deleteFails then
        ⟨⟨200, some "No Recipe found", none, none⟩, db, ⟨true, false⟩⟩
      else
        ⟨⟨200, some "Recipe successfully removed!", none, none⟩,
         ⟨db.recipes.filter (fun r => r.id != i), db.nextId⟩, ⟨true, true⟩⟩

/-- The handlers the app registers, one per `@app.route` decorator. -/
inductive Route where
  | index
  | create_recipe
  | get_recipes
  | get_recipe
  | update_recipe
  | delete_recipe
  deriving Repr, DecidableEq

/-- Request paths as Flask's router classifies them against the registered
rules: `/`, `/recipes`, `/recipes/<int:id>` (with the converted integer), or
any other path (e.g. `/health`). -/
inductive ReqPath where
  | root
  | recipes
  | recipesId : Nat → ReqPath
  | health
  | other : String → ReqPath
  deriving Repr, DecidableEq

/-- Routing: which handler, if any, the five `@app.route` decorators bind to a
(method, path) pair.  A pair matching no rule gets `none` (Flask's default
404). -/
def dispatch : String → ReqPath → Option Route
  | "GET", .root => some .index
  | "POST", .recipes => some .create_recipe
  | "GET", .recipes => some .get_recipes
  | "GET", .recipesId _ => some .get_recipe
  | "PATCH", .recipesId _ => some .update_recipe
  | "DELETE", .recipesId _ => some .delete_recipe
  | _, _ => none

/-- The full validation `create_recipe` performs before touching the
database: JSON content type, parseable body, the five required fields present
and truthy, and `int(cost)` defined and strictly positive. -/
def createValid (contentType : String) (body : Option JObj) : Bool :=
  (createParse contentType body).isSome

/-- The empty store. -/
def dbEmpty : DB := ⟨[], 1⟩

/-- The spec's concrete scenario body: Tea. -/
def teaData : JObj :=
  [("title", JValue.jstr "Tea"), ("making_time", JValue.jstr "5 min"),
   ("serves", JValue.jstr "1"),
   ("ingredients", JValue.jstr "Water, Tea Leaves, Sugar"),
   ("cost", JValue.jint 100)]

/-- A store already holding the Tea recipe under id 1. -/
def teaRecipe : Recipe :=
  { id := 1, title := JValue.jstr "Tea", making_time := JValue.jstr "5 min",
    serves := JValue.jstr "1",
    ingredients := JValue.jstr "Water, Tea Leaves, Sugar",
    cost := 100, created_at := 10, updated_at := 10 }

/-- Store holding exactly `teaRecipe`. -/
def dbTea : DB := ⟨[teaRecipe], 2⟩

/-- A create body with `title` absent (the other four fields valid). -/
def noTitleData : JObj :=
  [("making_time", JValue.jstr "5 min"), ("serves", JValue.jstr "1"),
   ("ingredients", JValue.jstr "Water, Tea Leaves, Sugar"),
   ("cost", JValue.jint 100)]

/-- A create body with `cost = 0` (the other four fields valid). -/
def zeroCostData : JObj :=
  [("title", JValue.jstr "Tea"), ("making_time", JValue.jstr "5 min"),
   ("serves", JValue.jstr "1"),
   ("ingredients", JValue.jstr "Water, Tea Leaves, Sugar"),
   ("cost", JValue.jint 0)]

/-- Finding by the id of a freshly appended row returns that row, provided no
earlier row already uses the id. -/
theorem findRecipe_append_fresh (l : List Recipe) (r : Recipe)
    (h : ∀ x ∈ l, x.id ≠ r.id) : findRecipe (l ++ [r]) r.id = some r := by
  induction l with
  | nil => simp [findRecipe]
  | cons a t ih =>
    have ha : a.id ≠ r.id := h a (by simp)
    have ht : ∀ x ∈ t, x.id ≠ r.id := fun x hx => h x (by simp [hx])
    simp only [findRecipe, List.cons_append, List.find?]
    rw [show (a.id == r.id) = false by simp [ha]]
    exact ih ht

/-- Claim C1, counterexample: a POST /recipes body missing the required
`title` field does NOT get HTTP status 400 — the handler answers 200. -/
theorem create_validation_failure_not_400 :
    (create_recipe "application/json" (some noTitleData) dbEmpty 0 false false false).resp.status = 200 ∧
    (create_recipe "application/json" (some noTitleData) dbEmpty 0 false false false).resp.status ≠ 400 := by
  decide

/-- Claim C1, amended: every POST /recipes request that is non-JSON or fails
validation, and every request on which the connection or the INSERT raises a
database error, is answered with HTTP status 200 and the fixed message
"Recipe creation failed!" (not 400 / 500). -/
theorem create_failure_paths (ct : String) (body : Option JObj) (db : DB) (now : Nat)
    (cf insf sf : Bool)
    (h : createValid ct body = false ∨ cf = true ∨ insf = true) :
    (create_recipe ct body db now cf insf sf).resp.status = 200 ∧
    (create_recipe ct body db now cf insf sf).resp.message = some "Recipe creation failed!" := by
  unfold create_recipe
  rcases hcp : createParse ct body with _ | ⟨data, cost⟩
  · exact ⟨rfl, rfl⟩
  · have hv : createValid ct body = true := by simp [createValid, hcp]
    rcases h with h | h | h
    · rw [hv] at h; cases h
    · subst h; exact ⟨rfl, rfl⟩
    · subst h
      by_cases hc : cf
      · subst hc; exact ⟨rfl, rfl⟩
      · simp only [Bool.not_eq_true] at hc
        subst hc; exact ⟨rfl, rfl⟩

/-- Witness for `create_failure_paths` at a concrete invalid request
(wrong Content-Type). -/
theorem create_failure_paths_witness :
    (create_recipe "text/plain" (some teaData) dbEmpty 0 false false false).resp.status = 200 ∧
    (create_recipe "text/plain" (some teaData) dbEmpty 0 false false false).resp.message
      = some "Recipe creation failed!" :=
  create_failure_paths "text/plain" (some teaData) dbEmpty 0 false false false (Or.inl (by decide))

/-- Claim C4: a POST /recipes request that fails validation gets the
validation-failure message and leaves the stored set of recipes (and the next
id) unchanged — no row is inserted, whatever the fault flags. -/
theorem create_invalid_no_insert (data : JObj) (db : DB) (now : Nat) (cf insf sf : Bool)
    (h : createValid "application/json" (some data) = false) :
    (create_recipe "application/json" (some data) db now cf insf sf).resp.message
      = some "Recipe creation failed!" ∧
    (create_recipe "application/json" (some data) db now cf insf sf).db = db := by
  unfold create_recipe
  rcases hcp : createParse "application/json" (some data) with _ | ⟨d, c⟩
  · exact ⟨rfl, rfl⟩
  · rw [createValid, hcp] at h; cases h

/-- Witness for `create_invalid_no_insert` at the spec's `cost = 0` body. -/
theorem create_invalid_no_insert_witness :
    (create_recipe "application/json" (some zeroCostData) dbEmpty 0 false false false).resp.message
      = some "Recipe creation failed!" ∧
    (create_recipe "application/json" (some zeroCostData) dbEmpty 0 false false false).db = dbEmpty :=
  create_invalid_no_insert zeroCostData dbEmpty 0 false false false (by decide)

/-- Claim C5: for a valid create payload (and a store whose next id is fresh,
as AUTO_INCREMENT guarantees), a GET /recipes/{id} on the id just created,
with no intervening mutation, returns exactly the record the creation
response carried — all eight fields equal. -/
theorem create_then_get_roundtrip (data : JObj) (db : DB) (now : Nat)
    (hv : createValid "application/json" (some data) = true)
    (hfresh : ∀ x ∈ db.recipes, x.id ≠ db.nextId) :
    ∃ rec : Recipe,
      (create_recipe "application/json" (some data) db now false false false).resp.message
        = some "Recipe successfully created!" ∧
      (create_recipe "application/json" (some data) db now false false false).resp.recipe
        = some rec ∧
      (get_recipe rec.id
          (create_recipe "application/json" (some data) db now false false false).db
          false false).resp
        = ⟨200, some "Recipe details by id", some rec, none⟩ := by
  rcases hcp : createParse "application/json" (some data) with _ | ⟨d, c⟩
  · rw [createValid, hcp] at hv; cases hv
  · have hfind : findRecipe (db.recipes ++ [insertedRecipe d c db now])
        (insertedRecipe d c db now).id = some (insertedRecipe d c db now) :=
      findRecipe_append_fresh _ _ (fun x hx => hfresh x hx)
    have hcreate : create_recipe "application/json" (some data) db now false false false
        = ⟨⟨200, some "Recipe successfully created!", some (insertedRecipe d c db now), none⟩,
           ⟨db.recipes ++ [insertedRecipe d c db now], db.nextId + 1⟩, ⟨true, true⟩⟩ := by
      unfold create_recipe
      rw [hcp]
      dsimp only
      rw [hfind]
      rfl
    refine ⟨insertedRecipe d c db now, ?_, ?_, ?_⟩
    · rw [hcreate]
    · rw [hcreate]
    · rw [hcreate]
      unfold get_recipe
      dsimp only
      rw [hfind]
      rfl

/-- Witness for `create_then_get_roundtrip` at the spec's Tea payload over the
empty store. -/
theorem create_then_get_roundtrip_witness :
    ∃ rec : Recipe,
      (create_recipe "application/json" (some teaData) dbEmpty 0 false false false).resp.message
        = some "Recipe successfully created!" ∧
      (create_recipe "application/json" (some teaData) dbEmpty 0 false false false).resp.recipe
        = some rec ∧
      (get_recipe rec.id
          (create_recipe "application/json" (some teaData) dbEmpty 0 false false false).db
          false false).resp
        = ⟨200, some "Recipe details by id", some rec, none⟩ :=
  create_then_get_roundtrip teaData dbEmpty 0 (by decide)
    (by intro x hx; simp [dbEmpty] at hx)

/-- Claim C2, counterexample: PATCH /recipes/1 on an existing record with the
single recognized field `cost` (the spec's own `{"cost": 150}` scenario) is
rejected with "Recipe update failed!" and changes nothing — one recognized
field is NOT sufficient. -/
theorem update_single_field_rejected :
    (update_recipe 1 (some [("cost", JValue.jint 150)]) dbTea 20 false false false false).resp.message
      = some "Recipe update failed!" ∧
    (update_recipe 1 (some [("cost", JValue.jint 150)]) dbTea 20 false false false false).db = dbTea := by
  decide

/-- Claim C2, amended: PATCH /recipes/{id} on an existing id succeeds exactly
when ALL five recognized fields are supplied non-empty and `cost` parses; it
then overwrites all five fields of the matching row, keeps `id` and
`created_at`, refreshes `updated_at` (schema behaviour modelled from the
spec), and leaves every other row unchanged. -/
theorem update_full_payload_effect (i : Nat) (data : JObj) (db : DB) (now : Nat)
    (r0 : Recipe) (cost : Int)
    (hall : required_fields.all (fun f => fieldTruthy data f) = true)
    (hfind : findRecipe db.recipes i = some r0)
    (hpy : pyInt (getField data "cost") = some cost) :
    (update_recipe i (some data) db now false false false false).resp.status = 200 ∧
    (update_recipe i (some data) db now false false false false).resp.message
      = some "Recipe successfully updated!" ∧
    (update_recipe i (some data) db now false false false false).db.recipes
      = db.recipes.map (fun r => if r.id == i then applyUpdate data cost now r else r) ∧
    (applyUpdate data cost now r0).id = r0.id ∧
    (applyUpdate data cost now r0).created_at = r0.created_at ∧
    (applyUpdate data cost now r0).updated_at = now := by
  unfold update_recipe
  simp [hall, hfind, hpy, applyUpdate]

/-- Witness for `update_full_payload_effect` at a full Tea payload on the
store holding the Tea recipe. -/
theorem update_full_payload_effect_witness :
    (update_recipe 1 (some teaData) dbTea 20 false false false false).resp.status = 200 ∧
    (update_recipe 1 (some teaData) dbTea 20 false false false false).resp.message
      = some "Recipe successfully updated!" ∧
    (update_recipe 1 (some teaData) dbTea 20 false false false false).db.recipes
      = dbTea.recipes.map (fun r => if r.id == 1 then applyUpdate teaData 100 20 r else r) ∧
    (applyUpdate teaData 100 20 teaRecipe).id = teaRecipe.id ∧
    (applyUpdate teaData 100 20 teaRecipe).created_at = teaRecipe.created_at ∧
    (applyUpdate teaData 100 20 teaRecipe).updated_at = 20 :=
  update_full_payload_effect 1 teaData dbTea 20 teaRecipe 100 (by decide) (by decide) (by decide)

/-- Claim C3, counterexample: GET /recipes/1 on an empty store answers 200
with the "No Recipe found" message, not HTTP status 404. -/
theorem get_missing_id_not_404 :
    (get_recipe 1 dbEmpty false false).resp.status = 200 ∧
    (get_recipe 1 dbEmpty false false).resp.status ≠ 404 ∧
    (get_recipe 1 dbEmpty false false).resp.message = some "No Recipe found" := by
  decide

/-- Claim C3, amended: when no stored record has the given id, GET, PATCH
(with a body passing the all-fields check) and DELETE on /recipes/{id} each
answer HTTP 200 with the "No Recipe found" message, leave the store
unchanged, and close the connection they acquired. -/
theorem not_found_responses (i : Nat) (db : DB) (data : JObj) (now : Nat)
    (hnone : findRecipe db.recipes i = none)
    (hall : required_fields.all (fun f => fieldTruthy data f) = true) :
    (get_recipe i db false false).resp = ⟨200, some "No Recipe found", none, none⟩ ∧
    (get_recipe i db false false).db = db ∧
    (get_recipe i db false false).conn = ⟨true, true⟩ ∧
    (update_recipe i (some data) db now false false false false).resp
      = ⟨200, some "No Recipe found", none, none⟩ ∧
    (update_recipe i (some data) db now false false false false).db = db ∧
    (update_recipe i (some data) db now false false false false).conn = ⟨true, true⟩ ∧
    (delete_recipe i db false false false).resp = ⟨200, some "No Recipe found", none, none⟩ ∧
    (delete_recipe i db false false false).db = db ∧
    (delete_recipe i db false false false).conn = ⟨true, true⟩ := by
  unfold get_recipe update_recipe delete_recipe
  simp [hnone, hall]

/-- Witness for `not_found_responses` at id 1 over the empty store. -/
theorem not_found_responses_witness :
    (get_recipe 1 dbEmpty false false).resp = ⟨200, some "No Recipe found", none, none⟩ ∧
    (get_recipe 1 dbEmpty false false).db = dbEmpty ∧
    (get_recipe 1 dbEmpty false false).conn = ⟨true, true⟩ ∧
    (update_recipe 1 (some teaData) dbEmpty 0 false false false false).resp
      = ⟨200, some "No Recipe found", none, none⟩ ∧
    (update_recipe 1 (some teaData) dbEmpty 0 false false false false).db = dbEmpty ∧
    (update_recipe 1 (some teaData) dbEmpty 0 false false false false).conn = ⟨true, true⟩ ∧
    (delete_recipe 1 dbEmpty false false false).resp = ⟨200, some "No Recipe found", none, none⟩ ∧
    (delete_recipe 1 dbEmpty false false false).db = dbEmpty ∧
    (delete_recipe 1 dbEmpty false false false).conn = ⟨true, true⟩ :=
  not_found_responses 1 dbEmpty teaData 0 (by decide) (by decide)

/-- Claim C6, counterexample: GET /recipes over the empty store carries NO
`recipes` array at all — the body is just the message "No recipes found". -/
theorem list_empty_no_array :
    (get_recipes dbEmpty false false).resp.recipes = none ∧
    (get_recipes dbEmpty false false).resp.message = some "No recipes found" := by
  decide

/-- Claim C6, amended: GET /recipes over an empty store answers HTTP 200 whose
body is the message "No recipes found" with no `recipes` field, and the store
is unchanged. -/
theorem list_empty_store (db : DB) (h : db.recipes = []) :
    (get_recipes db false false).resp = ⟨200, some "No recipes found", none, none⟩ ∧
    (get_recipes db false false).db = db := by
  unfold get_recipes
  simp [h]

/-- Witness for `list_empty_store` at the empty store. -/
theorem list_empty_store_witness :
    (get_recipes dbEmpty false false).resp = ⟨200, some "No recipes found", none, none⟩ ∧
    (get_recipes dbEmpty false false).db = dbEmpty :=
  list_empty_store dbEmpty rfl

/-- Claim C7: on the GET /recipes path where the SELECT raises a database
error after the connection was acquired, the handler returns (status 200)
WITHOUT closing the acquired connection — the connection leaks, contradicting
the release-on-every-path requirement. -/
theorem list_db_error_leaks_connection :
    (get_recipes dbEmpty false true).conn.opened = true ∧
    (get_recipes dbEmpty false true).conn.closed = false ∧
    (get_recipes dbEmpty false true).resp.status = 200 := by
  decide

/-- Claim C8, counterexample: no registered route matches GET /health — the
service does not expose a /health endpoint. -/
theorem no_health_route : dispatch "GET" ReqPath.health = none := by decide

/-- Claim C8, amended: the routing table binds exactly GET /, POST /recipes,
GET /recipes, and GET/PATCH/DELETE /recipes/{id}; requests to /health match
no route (Flask's default not-found applies). -/
theorem registered_routes (i : Nat) :
    dispatch "GET" ReqPath.health = none ∧
    dispatch "POST" ReqPath.health = none ∧
    dispatch "GET" ReqPath.root = some Route.index ∧
    dispatch "POST" ReqPath.recipes = some Route.create_recipe ∧
    dispatch "GET" ReqPath.recipes = some Route.get_recipes ∧
    dispatch "GET" (ReqPath.recipesId i) = some Route.get_recipe ∧
    dispatch "PATCH" (ReqPath.recipesId i) = some Route.update_recipe ∧
    dispatch "DELETE" (ReqPath.recipesId i) = some Route.delete_recipe :=
  ⟨rfl, rfl, rfl, rfl, rfl, rfl, rfl, rfl⟩

/-- Claim C9, counterexample: the GET / handler does not answer 200. -/
theorem index_not_200 : index.status ≠ 200 := by decide

/-- Claim C9, amended: GET / is routed to `index`, which answers HTTP 404
with an empty body (no message, no record fields). -/
theorem index_returns_404 :
    dispatch "GET" ReqPath.root = some Route.index ∧
    index = ⟨404, none, none, none⟩ :=
  ⟨rfl, rfl⟩

/-- Claim C10: every one of the five /recipes handlers answers HTTP status
200 on every input and every outcome — success, validation failure, missing
id, or database fault at any modelled point. -/
theorem recipes_routes_always_200 :
    (∀ ct body db now cf insf sf, (create_recipe ct body db now cf insf sf).resp.status = 200) ∧
    (∀ db cf lf, (get_recipes db cf lf).resp.status = 200) ∧
    (∀ i db cf sf, (get_recipe i db cf sf).resp.status = 200) ∧
    (∀ i body db now cf chf uf sf, (update_recipe i body db now cf chf uf sf).resp.status = 200) ∧
    (∀ i db cf chf df, (delete_recipe i db cf chf df).resp.status = 200) := by
  refine ⟨?_, ?_, ?_, ?_, ?_⟩
  · intro ct body db now cf insf sf
    unfold create_recipe
    repeat' split
    all_goals try rfl
    all_goals (dsimp only; split <;> rfl)
  · intro db cf lf
    unfold get_recipes
    repeat' split
    all_goals rfl
  · intro i db cf sf
    unfold get_recipe
    repeat' split
    all_goals rfl
  · intro i body db now cf chf uf sf
    unfold update_recipe
    repeat' split
    all_goals rfl
  · intro i db cf chf df
    unfold delete_recipe
    repeat' split
    all_goals rfl

end RecipeApp
